import Mathlib

/-!
Shallow embedding of `poogle/containers.py`: the `PoogleResultsPage` and
`PoogleResult` parsers over a model of the BeautifulSoup document tree.

The document tree is modelled as a nested inductive of elements and text
nodes.  BeautifulSoup operations used by the source are modelled as
preorder searches over the descendant list:
  * `soup.find(id=x)`               → `findById x soup`
  * `tag.ol` / `tag.find(name)`     → `findTag name tag` (first descendant)
  * `tag.find_all(name)`            → `findAllTag name tag`
  * `tag.find_all(name, class c)`   → `findAllTagClass name c tag`
  * `tag.text`                      → `Node.textContent tag` (concatenated text)
  * `tag.get(attr)`                 → `Node.attr attr tag`
Attribute access on a failed lookup (Python `None.foo`) raises
`AttributeError`; fallible operations return `Except PoogleExc`.

The total-results regular expression
`^[\w\s]+?(?P<count>\d+(,\d+)*)[\w\s]+$` is embedded as an explicit
backtracking matcher (`statsMatch`) with Python semantics: the lazy
leading `[\w\s]+?` tries shorter prefixes first, `\d+` and `(,\d+)*` are
greedy with backtracking, and the trailing `[\w\s]+$` must consume the
whole remainder.
-/

namespace Poogle

/-- A node of the parsed document tree: an element with a tag name, an
optional id attribute, a class list, other attributes, and children; or a
text node. -/
inductive Node where
  | elem (tag : String) (idAttr : Option String) (classes : List String)
      (attrs : List (String × String)) (children : List Node)
  | text (s : String)

mutual

/-- Concatenated text of all descendant text nodes (BeautifulSoup `.text`). -/
def Node.textContent : Node → String
  | Node.text s => s
  | Node.elem _ _ _ _ cs => textContentList cs

def textContentList : List Node → String
  | [] => ""
  | n :: ns => Node.textContent n ++ textContentList ns

end

mutual

/-- All descendants of a node in document (preorder) order, the node itself
excluded, text nodes included. -/
def Node.descendants : Node → List Node
  | Node.text _ => []
  | Node.elem _ _ _ _ cs => descendantsList cs

def descendantsList : List Node → List Node
  | [] => []
  | n :: ns => n :: (Node.descendants n ++ descendantsList ns)

end

/-- Does this node carry the given id attribute? -/
def Node.matchesId (target : String) : Node → Bool
  | Node.elem _ i _ _ _ => i == some target
  | Node.text _ => false

/-- Does this node have the given tag name? -/
def Node.matchesTag (name : String) : Node → Bool
  | Node.elem t _ _ _ _ => t == name
  | Node.text _ => false

/-- Does this node have the given tag name and the given CSS class? -/
def Node.matchesTagClass (name cls : String) : Node → Bool
  | Node.elem t _ cl _ _ => t == name && cl.contains cls
  | Node.text _ => false

/-- BeautifulSoup `soup.find(id=target)`: first descendant with that id. -/
def findById (target : String) (soup : Node) : Option Node :=
  (Node.descendants soup).find? (Node.matchesId target)

/-- BeautifulSoup `tag.name` attribute access / `tag.find(name)`: first
descendant with that tag name. -/
def findTag (name : String) (soup : Node) : Option Node :=
  (Node.descendants soup).find? (Node.matchesTag name)

/-- BeautifulSoup `tag.find_all(name)`: all descendants with that tag name. -/
def findAllTag (name : String) (soup : Node) : List Node :=
  (Node.descendants soup).filter (Node.matchesTag name)

/-- BeautifulSoup `tag.find_all(name, class cls)`: all descendants with that
tag name carrying the class. -/
def findAllTagClass (name cls : String) (soup : Node) : List Node :=
  (Node.descendants soup).filter (Node.matchesTagClass name cls)

/-- BeautifulSoup `tag.get(name)`: attribute lookup. -/
def Node.attr (name : String) : Node → Option String
  | Node.elem _ _ _ attrs _ => attrs.lookup name
  | Node.text _ => none

/-- Python 2 `\w` for a plain (non-unicode) pattern: `[a-zA-Z0-9_]`. -/
def isWordChar (c : Char) : Bool := c.isAlphanum || c == '_'

/-- Python `\s`: space, tab, newline, carriage return, vertical tab, form feed. -/
def isSpaceChar (c : Char) : Bool :=
  c == ' ' || c == '\t' || c == '\n' || c == '\r' || c == '\x0b' || c == '\x0c'

/-- The character class `[\w\s]` of the stats pattern. -/
def isWordSpace (c : Char) : Bool := isWordChar c || isSpaceChar c

/-- All ways `\d+` can match a prefix of `l`, greedy (longest) first, each as
(matched digits, remainder). -/
def digitsSplits (l : List Char) : List (List Char × List Char) :=
  let m := l.takeWhile Char.isDigit
  (List.range m.length).map (fun j => (m.take (m.length - j), l.drop (m.length - j)))

/-- All ways `(,\d+)*` can match a prefix of `l`, in backtracking priority
order (more repetitions, and longer digit runs inside a repetition, first);
each as (matched characters, remainder).  The fuel argument bounds the
number of repetitions; every repetition consumes at least two characters,
so fuel `l.length` is exhaustive. -/
def starMatches : Nat → List Char → List (List Char × List Char)
  | 0, l => [([], l)]
  | fuel + 1, l =>
    match l with
    | ',' :: rest =>
        ((digitsSplits rest).flatMap (fun p =>
          (starMatches fuel p.2).map (fun q => (',' :: (p.1 ++ q.1), q.2)))) ++ [([], l)]
    | _ => [([], l)]

/-- All ways the capture group `\d+(,\d+)*` can match a prefix of `l`, in
backtracking priority order, each as (captured characters, remainder). -/
def countMatches (l : List Char) : List (List Char × List Char) :=
  (digitsSplits l).flatMap (fun p =>
    (starMatches p.2.length p.2).map (fun q => (p.1 ++ q.1, q.2)))

/-- Attempt the pattern tail `(?P<count>\d+(,\d+)*)[\w\s]+$` at `l`:
first capture candidate whose remainder is a non-empty `[\w\s]` run. -/
def tryCountAt (l : List Char) : Option (List Char) :=
  (countMatches l).findSome? (fun p =>
    if !p.2.isEmpty && p.2.all isWordSpace then some p.1 else none)

/-- Python `re.match` of `^[\w\s]+?(?P<count>\d+(,\d+)*)[\w\s]+$`, returning
the text captured by the `count` group when the whole string matches.  The
lazy `[\w\s]+?` consumes at least one character and tries shorter prefixes
first. -/
def statsMatch : List Char → Option (List Char)
  | [] => none
  | c :: rest =>
    if isWordSpace c then
      match tryCountAt rest with
      | some cap => some cap
      | none => statsMatch rest
    else none

/-- Value of a digit string (used where Python calls `int` on digits). -/
def digitsToNat (l : List Char) : Nat :=
  l.foldl (fun n c => n * 10 + (c.toNat - 48)) 0

/-- Python `str.isdigit`: non-empty and all characters decimal digits. -/
def pyIsDigit (s : String) : Bool :=
  !s.data.isEmpty && s.data.all Char.isDigit

/-- Python `str.startswith` on a character-list prefix. -/
def startsWithChars : List Char → List Char → Bool
  | [], _ => true
  | _ :: _, [] => false
  | c :: cs, d :: ds => c == d && startsWithChars cs ds

/-- Python `s.startswith(pre)`. -/
def pyStartsWith (s pre : String) : Bool := startsWithChars pre.data s.data

/-- Exceptions that the parsing code can raise: `parserError` models the
library error `PoogleParserError`; `attributeError` models the Python
builtin `AttributeError` raised by attribute access on `None` after a
failed lookup. -/
inductive PoogleExc where
  | parserError (msg : String)
  | attributeError (msg : String)
deriving DecidableEq

/-- Modelled from the spec: the error module defining `PoogleError` and
`PoogleParserError` is not among the parsing sources; per the error
taxonomy of the design (ParserError is the recoverable library error, a
generic lookup failure is not a library error), the handler
`except PoogleError` catches exactly the parser errors and never the
builtin `AttributeError`. -/
def isPoogleError : PoogleExc → Bool
  | PoogleExc.parserError _ => true
  | PoogleExc.attributeError _ => false

/-- The fields of a parsed `PoogleResult`; both start as Python `None` and
are assigned during parsing. -/
structure PoogleResult where
  title : Option String
  url : Option String
deriving DecidableEq

/-- The fields of a parsed `PoogleResultsPage`. -/
structure PoogleResultsPage where
  results : List PoogleResult
  count : Nat
  total_results : Nat
  number : Nat
deriving DecidableEq

/-- `PoogleResult._parse_result`: title from the first anchor descendant,
href must start with `/url?` (else `PoogleParserError`), url from the
first cite descendant.  A missing anchor or cite means attribute access on
`None`, an `AttributeError`. -/
def parse_result (soup : Node) : Except PoogleExc PoogleResult :=
  match findTag "a" soup with
  | none => Except.error (PoogleExc.attributeError "NoneType has no attribute text")
  | some a =>
    match Node.attr "href" a with
    | none => Except.error (PoogleExc.attributeError "NoneType has no attribute startswith")
    | some href =>
      if pyStartsWith href "/url?" then
        match findTag "cite" soup with
        | none => Except.error (PoogleExc.attributeError "NoneType has no attribute text")
        | some c =>
            Except.ok { title := some (Node.textContent a), url := some (Node.textContent c) }
      else Except.error (PoogleExc.parserError ("Unrecognized URL format: " ++ href))

/-- `PoogleResultsPage._parse_total_results_count`: find the element with id
`resultStats` (a failed lookup raises inside the try block and is
converted to `PoogleParserError`), match its text against the stats
pattern, strip commas from the captured group and parse it as an
integer. -/
def parse_total_results_count (soup : Node) : Except PoogleExc Nat :=
  match findById "resultStats" soup with
  | none => Except.error (PoogleExc.parserError "NoneType has no attribute text")
  | some st =>
    match statsMatch (Node.textContent st).data with
    | none =>
        Except.error (PoogleExc.parserError
          ("Unrecognized total results format: " ++ Node.textContent st))
    | some cap => Except.ok (digitsToNat (cap.filter (fun c => c != ',')))

/-- The try/except block of `_parse_results` around the total-results step:
a `PoogleError` is re-raised in strict mode and swallowed (keeping the
initial `total_results = 0`) otherwise; any other exception propagates. -/
def statsStep (strict : Bool) (soup : Node) : Except PoogleExc Nat :=
  match parse_total_results_count soup with
  | Except.ok n => Except.ok n
  | Except.error e =>
    if isPoogleError e then
      if strict then Except.error e else Except.ok 0
    else Except.error e

/-- The per-item loop of `_parse_results`: construct a `PoogleResult` for
each entry, skip an entry on `PoogleParserError`, propagate any other
exception. -/
def parseResultsList : List Node → Except PoogleExc (List PoogleResult)
  | [] => Except.ok []
  | e :: es =>
    match parse_result e with
    | Except.ok r =>
        (match parseResultsList es with
         | Except.ok rs => Except.ok (r :: rs)
         | Except.error err => Except.error err)
    | Except.error (PoogleExc.parserError _) => parseResultsList es
    | Except.error (PoogleExc.attributeError m) =>
        Except.error (PoogleExc.attributeError m)

/-- The result-list extraction of `_parse_results`:
`soup.find(id=search).ol.find_all(li, class g)` followed by the per-item
loop; a missing container or missing ordered list is attribute access on
`None`. -/
def parseAllResults (soup : Node) : Except PoogleExc (List PoogleResult) :=
  match findById "search" soup with
  | none => Except.error (PoogleExc.attributeError "NoneType has no attribute ol")
  | some se =>
    match findTag "ol" se with
    | none => Except.error (PoogleExc.attributeError "NoneType has no attribute findall")
    | some ol => parseResultsList (findAllTagClass "li" "g" ol)

/-- `PoogleResultsPage.__init__` / `_parse_results`: fields start at their
defaults (`results = []`, `count = 0`, `total_results = 0`, `number = 0`),
then the total-results step runs under its strict/lenient handler, then
the result list is parsed and `count` set to its length.  `number` is
never assigned on this path: `_parse_page_number` is not invoked by the
constructor. -/
def mkPoogleResultsPage (strict : Bool) (soup : Node) : Except PoogleExc PoogleResultsPage :=
  match statsStep strict soup with
  | Except.error e => Except.error e
  | Except.ok tr =>
    match parseAllResults soup with
    | Except.error e => Except.error e
    | Except.ok rs =>
        Except.ok { results := rs, count := rs.length, total_results := tr, number := 0 }

/-- `PoogleResultsPage._parse_page_number`: find the element with id `foot`
(a failed lookup is attribute access on `None`), scan its `td` descendants
for the first with no anchor descendant and all-digit text, and parse it;
if none qualifies, raise `PoogleParserError` in strict mode, otherwise
leave the number at its initial 0. -/
def parse_page_number (strict : Bool) (soup : Node) : Except PoogleExc Nat :=
  match findById "foot" soup with
  | none => Except.error (PoogleExc.attributeError "NoneType has no attribute findall")
  | some foot =>
    match (findAllTag "td" foot).find? (fun td =>
        (findTag "a" td).isNone && pyIsDigit (Node.textContent td)) with
    | some td => Except.ok (digitsToNat (Node.textContent td).data)
    | none =>
      if strict then
        Except.error (PoogleExc.parserError "Unable to parse the current page number")
      else Except.ok 0

/-- A well-formed organic result entry. -/
def goodEntry1 : Node :=
  Node.elem "li" none ["g"] []
    [Node.elem "a" none [] [("href", "/url?q=http://example.com/")] [Node.text "Example Title"],
     Node.elem "cite" none [] [] [Node.text "example.com"]]

/-- A second well-formed organic result entry. -/
def goodEntry2 : Node :=
  Node.elem "li" none ["g"] []
    [Node.elem "a" none [] [("href", "/url?q=http://other.org/")] [Node.text "Other Title"],
     Node.elem "cite" none [] [] [Node.text "other.org"]]

/-- An entry whose anchor href does not start with the organic prefix. -/
def badHrefEntry : Node :=
  Node.elem "li" none ["g"] []
    [Node.elem "a" none [] [("href", "/images?q=cats")] [Node.text "Image Results"],
     Node.elem "cite" none [] [] [Node.text "images"]]

/-- An entry with no anchor element at all. -/
def noAnchorEntry : Node :=
  Node.elem "li" none ["g"] [] [Node.elem "cite" none [] [] [Node.text "nolink.org"]]

/-- An entry with a valid anchor but no citation element. -/
def noCiteEntry : Node :=
  Node.elem "li" none ["g"] []
    [Node.elem "a" none [] [("href", "/url?q=http://nocite.net/")] [Node.text "No Cite"]]

/-- The results container: a div with id `search` holding an ordered list of
entries. -/
def searchBlock (entries : List Node) : Node :=
  Node.elem "div" (some "search") [] [] [Node.elem "ol" none [] [] entries]

/-- The statistics element with id `resultStats` and the given text. -/
def statsBlock (txt : String) : Node :=
  Node.elem "div" (some "resultStats") [] [] [Node.text txt]

/-- A footer with id `foot` whose cells are Previous, 1, 2, 3, Next, where
only the digit cells lack a nested anchor. -/
def footBlock : Node :=
  Node.elem "div" (some "foot") [] []
    [Node.elem "table" none [] []
      [Node.elem "tr" none [] []
        [Node.elem "td" none [] []
           [Node.elem "a" none [] [("href", "/prevpage")] [Node.text "Previous"]],
         Node.elem "td" none [] [] [Node.text "1"],
         Node.elem "td" none [] [] [Node.text "2"],
         Node.elem "td" none [] [] [Node.text "3"],
         Node.elem "td" none [] []
           [Node.elem "a" none [] [("href", "/nextpage")] [Node.text "Next"]]]]]

/-- A whole results page document with the given top-level blocks. -/
def document (blocks : List Node) : Node :=
  Node.elem "html" none [] [] blocks

/-- Parsed value of `goodEntry1`. -/
def goodResult1 : PoogleResult := { title := some "Example Title", url := some "example.com" }

/-- Parsed value of `goodEntry2`. -/
def goodResult2 : PoogleResult := { title := some "Other Title", url := some "other.org" }

/-- Tree for claim C1: empty results list plus the Previous/1/2/3/Next footer. -/
def c1tree : Node := document [searchBlock [], footBlock]

/-- Tree for claim C2: stats text with the parenthesized timing suffix. -/
def c2tree : Node :=
  document [statsBlock "About 1,234,567 results (0.45 seconds)", searchBlock []]

/-- Companion tree for claim C2: stats text without the timing suffix. -/
def c2btree : Node := document [statsBlock "About 1,234,567 results", searchBlock []]

/-- Tree for claim C3: digit-free stats text over an otherwise valid page. -/
def c3tree : Node := document [statsBlock "No results found", searchBlock [goodEntry1]]

/-- Tree for claim C4: a disallowed-href entry between two good entries. -/
def c4tree : Node := document [searchBlock [goodEntry1, badHrefEntry, goodEntry2]]

/-- Tree for claim C5: an entry with no anchor after a good entry. -/
def c5tree : Node := document [searchBlock [goodEntry1, noAnchorEntry]]

/-- Tree for claim C6: valid stats but no results container at all. -/
def c6tree : Node := document [statsBlock "About 25 results"]

/-- Tree for claims C7 and C9: two well-formed entries. -/
def c7tree : Node := document [searchBlock [goodEntry1, goodEntry2]]

/-- Tree for claim C10: valid stats and results, no footer at all. -/
def c10tree : Node := document [statsBlock "About 25 results", searchBlock [goodEntry1]]

/-- The page obtained by lenient construction from `c7tree`. -/
def c7page : PoogleResultsPage :=
  { results := [goodResult1, goodResult2], count := 2, total_results := 0, number := 0 }

/-- A digit-free character list makes `takeWhile isDigit` empty. -/
lemma takeWhile_isDigit_eq_nil (l : List Char) (h : ∀ c ∈ l, c.isDigit = false) :
    l.takeWhile Char.isDigit = [] := by
  cases l with
  | nil => rfl
  | cons c cs => simp [List.takeWhile_cons, h c (List.mem_cons_self c cs)]

/-- Without a leading digit, `\d+` has no match. -/
lemma digitsSplits_eq_nil (l : List Char) (h : ∀ c ∈ l, c.isDigit = false) :
    digitsSplits l = [] := by
  simp [digitsSplits, takeWhile_isDigit_eq_nil l h]

/-- Without a leading digit, the capture group has no match at this position. -/
lemma tryCountAt_eq_none (l : List Char) (h : ∀ c ∈ l, c.isDigit = false) :
    tryCountAt l = none := by
  simp [tryCountAt, countMatches, digitsSplits_eq_nil l h]

/-- The stats pattern never matches a digit-free string. -/
lemma statsMatch_eq_none (l : List Char) (h : ∀ c ∈ l, c.isDigit = false) :
    statsMatch l = none := by
  induction l with
  | nil => rfl
  | cons c cs ih =>
      have hcs : ∀ x ∈ cs, x.isDigit = false := fun x hx => h x (List.mem_cons_of_mem c hx)
      simp [statsMatch, tryCountAt_eq_none cs hcs, ih hcs]

/-- A present stats element with digit-free text makes the total-results
parser raise `PoogleParserError`. -/
lemma parse_total_no_digit (t st : Node) (hfind : findById "resultStats" t = some st)
    (hnd : ∀ c ∈ (Node.textContent st).data, c.isDigit = false) :
    parse_total_results_count t =
      Except.error (PoogleExc.parserError
        ("Unrecognized total results format: " ++ Node.textContent st)) := by
  simp [parse_total_results_count, hfind, statsMatch_eq_none _ hnd]

/-- In strict mode, a parser error of the total-results step is re-raised. -/
lemma statsStep_strict_of_parserError (t : Node) (m : String)
    (h : parse_total_results_count t = Except.error (PoogleExc.parserError m)) :
    statsStep true t = Except.error (PoogleExc.parserError m) := by
  simp [statsStep, h, isPoogleError]

/-- In lenient mode, a parser error of the total-results step is swallowed
and the count stays 0. -/
lemma statsStep_lenient_of_parserError (t : Node) (m : String)
    (h : parse_total_results_count t = Except.error (PoogleExc.parserError m)) :
    statsStep false t = Except.ok 0 := by
  simp [statsStep, h, isPoogleError]

/-- Successful stats and result-list steps give a successful construction. -/
lemma mkPage_ok (b : Bool) (t : Node) (n : Nat) (rs : List PoogleResult)
    (h1 : statsStep b t = Except.ok n) (h2 : parseAllResults t = Except.ok rs) :
    mkPoogleResultsPage b t =
      Except.ok { results := rs, count := rs.length, total_results := n, number := 0 } := by
  simp [mkPoogleResultsPage, h1, h2]

/-- An escaping stats-step error aborts construction with that error. -/
lemma mkPage_error_stats (b : Bool) (t : Node) (e : PoogleExc)
    (h : statsStep b t = Except.error e) :
    mkPoogleResultsPage b t = Except.error e := by
  simp [mkPoogleResultsPage, h]

/-- A result-list error aborts construction with that error. -/
lemma mkPage_error_results (b : Bool) (t : Node) (n : Nat) (e : PoogleExc)
    (h1 : statsStep b t = Except.ok n) (h2 : parseAllResults t = Except.error e) :
    mkPoogleResultsPage b t = Except.error e := by
  simp [mkPoogleResultsPage, h1, h2]

/-- With the container and its ordered list present, the result-list step is
the per-item loop over the class-filtered entries. -/
lemma parseAllResults_eq (t se ol : Node)
    (h1 : findById "search" t = some se) (h2 : findTag "ol" se = some ol) :
    parseAllResults t = parseResultsList (findAllTagClass "li" "g" ol) := by
  simp [parseAllResults, h1, h2]

/-- A successful construction is exactly a successful stats step and a
successful result-list step, with the fields as assigned by the
constructor. -/
lemma mkPage_ok_inv (b : Bool) (t : Node) (p : PoogleResultsPage)
    (h : mkPoogleResultsPage b t = Except.ok p) :
    ∃ n rs, statsStep b t = Except.ok n ∧ parseAllResults t = Except.ok rs ∧
      p = { results := rs, count := rs.length, total_results := n, number := 0 } := by
  cases hs : statsStep b t with
  | error e =>
      rw [mkPage_error_stats b t e hs] at h
      exact Except.noConfusion h
  | ok n =>
      cases hr : parseAllResults t with
      | error e =>
          rw [mkPage_error_results b t n e hs hr] at h
          exact Except.noConfusion h
      | ok rs =>
          rw [mkPage_ok b t n rs hs hr] at h
          exact ⟨n, rs, rfl, rfl, (Except.ok.inj h).symm⟩

/-- An entry failing with a parser error is skipped by the per-item loop:
the parse of the list is the parse of the list without it. -/
lemma parseResultsList_skip (e : Node) (m : String)
    (he : parse_result e = Except.error (PoogleExc.parserError m)) :
    ∀ xs ys : List Node, parseResultsList (xs ++ e :: ys) = parseResultsList (xs ++ ys) := by
  intro xs
  induction xs with
  | nil => intro ys; simp [parseResultsList, he]
  | cons x xs ih =>
      intro ys
      simp only [List.cons_append, parseResultsList, List.append_eq]
      rw [ih ys]

/-- An entry failing with an attribute error aborts the per-item loop with
that error, provided the entries before it do not abort first. -/
lemma parseResultsList_abort (e : Node) (m : String)
    (he : parse_result e = Except.error (PoogleExc.attributeError m)) :
    ∀ (xs : List Node) (ws : List PoogleResult), parseResultsList xs = Except.ok ws →
      ∀ ys : List Node,
        parseResultsList (xs ++ e :: ys) = Except.error (PoogleExc.attributeError m) := by
  intro xs
  induction xs with
  | nil => intro ws _ ys; simp [parseResultsList, he]
  | cons x xs ih =>
      intro ws hok ys
      cases hx : parse_result x with
      | ok r =>
          simp only [parseResultsList, hx] at hok
          cases hxs : parseResultsList xs with
          | ok rs =>
              simp only [List.cons_append, parseResultsList, hx, List.append_eq]
              rw [ih rs hxs ys]
          | error err => rw [hxs] at hok; simp at hok
      | error err =>
          cases err with
          | parserError m2 =>
              simp only [parseResultsList, hx] at hok
              simp only [List.cons_append, parseResultsList, hx, List.append_eq]
              exact ih ws hok ys
          | attributeError m2 =>
              simp only [parseResultsList, hx] at hok
              exact Except.noConfusion hok

/-- When every entry parses, the per-item loop returns exactly the parses
in document order. -/
lemma parseResultsList_all_ok (lis : List Node)
    (h : ∀ e ∈ lis, ∃ r, parse_result e = Except.ok r) :
    parseResultsList lis =
      Except.ok (lis.filterMap (fun e => (parse_result e).toOption)) := by
  induction lis with
  | nil => rfl
  | cons e es ih =>
      obtain ⟨r, hr⟩ := h e (List.mem_cons_self e es)
      have ihe := ih (fun x hx => h x (List.mem_cons_of_mem e hx))
      simp [parseResultsList, hr, ihe, List.filterMap_cons, Except.toOption]

/-- When every entry parses, the loop result has one element per entry. -/
lemma filterMap_parse_length (lis : List Node)
    (h : ∀ e ∈ lis, ∃ r, parse_result e = Except.ok r) :
    (lis.filterMap (fun e => (parse_result e).toOption)).length = lis.length := by
  induction lis with
  | nil => rfl
  | cons e es ih =>
      obtain ⟨r, hr⟩ := h e (List.mem_cons_self e es)
      have ihe := ih (fun x hx => h x (List.mem_cons_of_mem e hx))
      simp [List.filterMap_cons, hr, Except.toOption, ihe]
      intro a ha
      obtain ⟨r2, hr2⟩ := h a (List.mem_cons_of_mem e ha)
      rw [hr2]
      rfl

/-- Claim C1 (code divergence): for a page whose footer cells are
Previous, 1, 2, 3, Next, with only the digit cells lacking a nested link,
lenient construction yields a page with `number = 0`, not 1, because the
constructor never invokes the page-number parser; the page-number parser
itself, run on the same tree, does select the first qualifying cell and
yields 1 as the claim describes. -/
theorem C1_number_not_parsed_during_construction :
    mkPoogleResultsPage false c1tree =
      Except.ok { results := [], count := 0, total_results := 0, number := 0 } ∧
    parse_page_number false c1tree = Except.ok 1 :=
  ⟨rfl, rfl⟩

/-- Claim C2 (counterexample): for stats text
"About 1,234,567 results (0.45 seconds)" the stats pattern cannot match,
because the parentheses and the dot of the timing suffix are outside the
trailing character class; lenient construction yields `total_results = 0`,
and no construction from this tree yields 1234567. -/
theorem C2_counterexample :
    mkPoogleResultsPage false c2tree =
      Except.ok { results := [], count := 0, total_results := 0, number := 0 } ∧
    ¬ ∃ p, mkPoogleResultsPage false c2tree = Except.ok p ∧ p.total_results = 1234567 := by
  refine ⟨rfl, ?_⟩
  rintro ⟨p, hp, hv⟩
  have h0 : mkPoogleResultsPage false c2tree =
      Except.ok { results := [], count := 0, total_results := 0, number := 0 } := rfl
  rw [h0] at hp
  rw [← Except.ok.inj hp] at hv
  exact absurd hv (by decide)

/-- Claim C2 (amended): for stats text "About 1,234,567 results", made only
of word characters and spaces around the comma-grouped number, the match
succeeds, the commas of the captured group are stripped and
`total_results = 1234567`; with the trailing "(0.45 seconds)" the pattern
fails, so in strict mode construction raises the format parser error. -/
theorem C2_amended_stats_text :
    mkPoogleResultsPage false c2btree =
      Except.ok { results := [], count := 0, total_results := 1234567, number := 0 } ∧
    mkPoogleResultsPage true c2tree =
      Except.error (PoogleExc.parserError
        "Unrecognized total results format: About 1,234,567 results (0.45 seconds)") :=
  ⟨rfl, rfl⟩

/-- Claim C3: for every tree whose stats element is present with digit-free
text, strict construction raises a parser error; lenient construction
succeeds with `total_results = 0` whenever the result-list step succeeds. -/
theorem C3_digit_free_stats (t st : Node)
    (hfind : findById "resultStats" t = some st)
    (hnd : ∀ c ∈ (Node.textContent st).data, c.isDigit = false) :
    (∃ m, mkPoogleResultsPage true t = Except.error (PoogleExc.parserError m)) ∧
    ∀ rs, parseAllResults t = Except.ok rs →
      mkPoogleResultsPage false t =
        Except.ok { results := rs, count := rs.length, total_results := 0, number := 0 } := by
  have hp := parse_total_no_digit t st hfind hnd
  constructor
  · exact ⟨_, mkPage_error_stats true t _ (statsStep_strict_of_parserError t _ hp)⟩
  · intro rs hrs
    exact mkPage_ok false t 0 rs (statsStep_lenient_of_parserError t _ hp) hrs

theorem C3_witness :
    (∃ m, mkPoogleResultsPage true c3tree = Except.error (PoogleExc.parserError m)) ∧
    mkPoogleResultsPage false c3tree =
      Except.ok { results := [goodResult1], count := 1, total_results := 0, number := 0 } := by
  obtain ⟨h1, h2⟩ := C3_digit_free_stats c3tree (statsBlock "No results found") rfl (by decide)
  exact ⟨h1, h2 [goodResult1] rfl⟩

/-- Claim C4: an entry whose anchor href does not start with the organic
prefix `/url?` fails with a parser error, is skipped by the per-item loop,
and page construction succeeds with the remaining entries, in either
mode. -/
theorem C4_disallowed_href_entry_skipped (b : Bool) (t se ol e a : Node)
    (xs ys : List Node) (href : String) (rs : List PoogleResult) (n : Nat)
    (h1 : findById "search" t = some se)
    (h2 : findTag "ol" se = some ol)
    (h3 : findAllTagClass "li" "g" ol = xs ++ e :: ys)
    (h4 : findTag "a" e = some a)
    (h5 : Node.attr "href" a = some href)
    (h6 : pyStartsWith href "/url?" = false)
    (h7 : parseResultsList (xs ++ ys) = Except.ok rs)
    (h8 : statsStep b t = Except.ok n) :
    (∃ m, parse_result e = Except.error (PoogleExc.parserError m)) ∧
    mkPoogleResultsPage b t =
      Except.ok { results := rs, count := rs.length, total_results := n, number := 0 } := by
  have hpe : parse_result e =
      Except.error (PoogleExc.parserError ("Unrecognized URL format: " ++ href)) := by
    simp [parse_result, h4, h5, h6]
  refine ⟨⟨_, hpe⟩, ?_⟩
  have hall : parseAllResults t = Except.ok rs := by
    rw [parseAllResults_eq t se ol h1 h2, h3, parseResultsList_skip e _ hpe xs ys, h7]
  exact mkPage_ok b t n rs h8 hall

theorem C4_witness :
    (∃ m, parse_result badHrefEntry = Except.error (PoogleExc.parserError m)) ∧
    mkPoogleResultsPage false c4tree =
      Except.ok { results := [goodResult1, goodResult2], count := 2,
                  total_results := 0, number := 0 } :=
  C4_disallowed_href_entry_skipped false c4tree
    (searchBlock [goodEntry1, badHrefEntry, goodEntry2])
    (Node.elem "ol" none [] [] [goodEntry1, badHrefEntry, goodEntry2])
    badHrefEntry
    (Node.elem "a" none [] [("href", "/images?q=cats")] [Node.text "Image Results"])
    [goodEntry1] [goodEntry2] "/images?q=cats" [goodResult1, goodResult2] 0
    rfl rfl rfl rfl rfl rfl rfl rfl

/-- Claim C5: an entry with no anchor (or with a valid anchor but no
citation element) fails with an attribute error, not a parser error; the
per-item loop does not catch it, and whenever the preceding entries do not
abort and the stats step succeeds, page construction aborts with that
attribute error. -/
theorem C5_missing_anchor_or_cite_aborts (b : Bool) (t se ol e : Node)
    (xs ys : List Node) (ws : List PoogleResult) (n : Nat)
    (h1 : findById "search" t = some se)
    (h2 : findTag "ol" se = some ol)
    (h3 : findAllTagClass "li" "g" ol = xs ++ e :: ys)
    (h4 : findTag "a" e = none ∨
      ∃ a href, findTag "a" e = some a ∧ Node.attr "href" a = some href ∧
        pyStartsWith href "/url?" = true ∧ findTag "cite" e = none)
    (h5 : parseResultsList xs = Except.ok ws)
    (h6 : statsStep b t = Except.ok n) :
    ∃ m, parse_result e = Except.error (PoogleExc.attributeError m) ∧
      mkPoogleResultsPage b t = Except.error (PoogleExc.attributeError m) := by
  have hpe : ∃ m, parse_result e = Except.error (PoogleExc.attributeError m) := by
    rcases h4 with h | ⟨a, href, ha, hh, hs, hc⟩
    · exact ⟨"NoneType has no attribute text", by simp [parse_result, h]⟩
    · exact ⟨"NoneType has no attribute text", by simp [parse_result, ha, hh, hs, hc]⟩
  obtain ⟨m, hm⟩ := hpe
  refine ⟨m, hm, ?_⟩
  have hall : parseAllResults t = Except.error (PoogleExc.attributeError m) := by
    rw [parseAllResults_eq t se ol h1 h2, h3]
    exact parseResultsList_abort e m hm xs ws h5 ys
  exact mkPage_error_results b t n _ h6 hall

theorem C5_witness :
    ∃ m, parse_result noAnchorEntry = Except.error (PoogleExc.attributeError m) ∧
      mkPoogleResultsPage false c5tree = Except.error (PoogleExc.attributeError m) :=
  C5_missing_anchor_or_cite_aborts false c5tree
    (searchBlock [goodEntry1, noAnchorEntry])
    (Node.elem "ol" none [] [] [goodEntry1, noAnchorEntry])
    noAnchorEntry [goodEntry1] [] [goodResult1] 0
    rfl rfl rfl (Or.inl rfl) rfl rfl

/-- Claim C6: when the results container with id `search` (or its
ordered-list child) is absent, construction never succeeds in either
mode; whenever the stats step does not abort first, the failure is an
uncaught attribute error. -/
theorem C6_missing_container_aborts (b : Bool) (t : Node)
    (h : findById "search" t = none ∨
      ∃ se, findById "search" t = some se ∧ findTag "ol" se = none) :
    (¬ ∃ p, mkPoogleResultsPage b t = Except.ok p) ∧
    ∀ n, statsStep b t = Except.ok n →
      ∃ m, mkPoogleResultsPage b t = Except.error (PoogleExc.attributeError m) := by
  have hall : ∃ m, parseAllResults t = Except.error (PoogleExc.attributeError m) := by
    rcases h with h | ⟨se, hse, hol⟩
    · exact ⟨"NoneType has no attribute ol", by simp [parseAllResults, h]⟩
    · exact ⟨"NoneType has no attribute findall", by simp [parseAllResults, hse, hol]⟩
  obtain ⟨m, hm⟩ := hall
  constructor
  · rintro ⟨p, hp⟩
    obtain ⟨n, rs, _, hrs, _⟩ := mkPage_ok_inv b t p hp
    rw [hm] at hrs
    exact Except.noConfusion hrs
  · intro n hn
    exact ⟨m, mkPage_error_results b t n _ hn hm⟩

theorem C6_witness :
    (¬ ∃ p, mkPoogleResultsPage true c6tree = Except.ok p) ∧
    ∃ m, mkPoogleResultsPage true c6tree = Except.error (PoogleExc.attributeError m) := by
  obtain ⟨h1, h2⟩ := C6_missing_container_aborts true c6tree (Or.inl rfl)
  exact ⟨h1, h2 25 rfl⟩

/-- Claim C7: after every successful construction, `count` equals the
length of `results`; and when every listed entry parses, `results` is
exactly the sequence of parsed entries in document order, with one element
per entry. -/
theorem C7_count_matches_results (b : Bool) (t : Node) (p : PoogleResultsPage)
    (h : mkPoogleResultsPage b t = Except.ok p) :
    p.count = p.results.length ∧
    ∀ se ol, findById "search" t = some se → findTag "ol" se = some ol →
      (∀ e ∈ findAllTagClass "li" "g" ol, ∃ r, parse_result e = Except.ok r) →
      p.results = (findAllTagClass "li" "g" ol).filterMap
          (fun e => (parse_result e).toOption) ∧
      p.results.length = (findAllTagClass "li" "g" ol).length := by
  obtain ⟨n, rs, hn, hrs, hp⟩ := mkPage_ok_inv b t p h
  subst hp
  refine ⟨rfl, ?_⟩
  intro se ol hse hol hall
  rw [parseAllResults_eq t se ol hse hol] at hrs
  rw [parseResultsList_all_ok _ hall] at hrs
  have heq := Except.ok.inj hrs
  constructor
  · exact heq.symm
  · rw [← heq]
    exact filterMap_parse_length _ hall

theorem C7_witness :
    c7page.count = c7page.results.length ∧
    c7page.results =
      (findAllTagClass "li" "g" (Node.elem "ol" none [] [] [goodEntry1, goodEntry2])).filterMap
        (fun e => (parse_result e).toOption) ∧
    c7page.results.length =
      (findAllTagClass "li" "g" (Node.elem "ol" none [] [] [goodEntry1, goodEntry2])).length := by
  have hall : ∀ e ∈ findAllTagClass "li" "g"
      (Node.elem "ol" none [] [] [goodEntry1, goodEntry2]),
      ∃ r, parse_result e = Except.ok r := by
    have hl : findAllTagClass "li" "g" (Node.elem "ol" none [] [] [goodEntry1, goodEntry2])
        = [goodEntry1, goodEntry2] := rfl
    rw [hl]
    intro e he
    rcases List.mem_cons.mp he with h | h
    · subst h; exact ⟨goodResult1, rfl⟩
    · rcases List.mem_cons.mp h with h2 | h2
      · subst h2; exact ⟨goodResult2, rfl⟩
      · exact absurd h2 (List.not_mem_nil e)
  obtain ⟨h1, h2⟩ := C7_count_matches_results false c7tree c7page rfl
  obtain ⟨h3, h4⟩ := h2 (searchBlock [goodEntry1, goodEntry2])
    (Node.elem "ol" none [] [] [goodEntry1, goodEntry2]) rfl rfl hall
  exact ⟨h1, h3, h4⟩

/-- Claim C8: a successfully parsed result always has both its title and
its url field assigned; when the anchor or the citation element is
missing, parsing fails and never returns a result at all. -/
theorem C8_result_always_complete (e : Node) :
    (∀ r, parse_result e = Except.ok r → r.title ≠ none ∧ r.url ≠ none) ∧
    ((findTag "a" e = none ∨ findTag "cite" e = none) →
      ∀ r, parse_result e ≠ Except.ok r) := by
  constructor
  · intro r hr
    cases ha : findTag "a" e with
    | none => simp [parse_result, ha] at hr
    | some a =>
      cases hh : Node.attr "href" a with
      | none => simp [parse_result, ha, hh] at hr
      | some href =>
        cases hs : pyStartsWith href "/url?" with
        | false => simp [parse_result, ha, hh, hs] at hr
        | true =>
          cases hc : findTag "cite" e with
          | none => simp [parse_result, ha, hh, hs, hc] at hr
          | some c =>
            simp only [parse_result, ha, hh, hs, if_true, hc] at hr
            rw [← Except.ok.inj hr]
            exact ⟨Option.some_ne_none _, Option.some_ne_none _⟩
  · rintro (hab | hcb) r hr
    · simp [parse_result, hab] at hr
    · cases ha : findTag "a" e with
      | none => simp [parse_result, ha] at hr
      | some a =>
        cases hh : Node.attr "href" a with
        | none => simp [parse_result, ha, hh] at hr
        | some href =>
          cases hs : pyStartsWith href "/url?" with
          | false => simp [parse_result, ha, hh, hs] at hr
          | true => simp [parse_result, ha, hh, hs, hcb] at hr

theorem C8_witness :
    (goodResult1.title ≠ none ∧ goodResult1.url ≠ none) ∧
    parse_result noAnchorEntry ≠ Except.ok { title := none, url := none } :=
  ⟨(C8_result_always_complete goodEntry1).1 goodResult1 rfl,
   (C8_result_always_complete noAnchorEntry).2 (Or.inl rfl) { title := none, url := none }⟩

/-- Claim C9: construction is deterministic — two constructions from the
identical tree with the identical strict flag agree on every field. -/
theorem C9_deterministic (b : Bool) (t : Node) (p q : PoogleResultsPage)
    (hp : mkPoogleResultsPage b t = Except.ok p)
    (hq : mkPoogleResultsPage b t = Except.ok q) :
    p.results = q.results ∧ p.count = q.count ∧
      p.total_results = q.total_results ∧ p.number = q.number := by
  rw [hp] at hq
  rw [Except.ok.inj hq]
  exact ⟨rfl, rfl, rfl, rfl⟩

theorem C9_witness :
    c7page.results = c7page.results ∧ c7page.count = c7page.count ∧
      c7page.total_results = c7page.total_results ∧ c7page.number = c7page.number :=
  C9_deterministic false c7tree c7page c7page rfl rfl

/-- Claim C10: for every tree and either flag, a successfully constructed
page has `number = 0`; and whenever the stats step and the result-list
step succeed, construction succeeds with `number = 0`, with no dependence
on the footer even in strict mode. -/
theorem C10_number_always_zero (b : Bool) (t : Node) :
    (∀ p, mkPoogleResultsPage b t = Except.ok p → p.number = 0) ∧
    ∀ n rs, statsStep b t = Except.ok n → parseAllResults t = Except.ok rs →
      mkPoogleResultsPage b t =
        Except.ok { results := rs, count := rs.length, total_results := n, number := 0 } := by
  constructor
  · intro p hp
    obtain ⟨n, rs, _, _, hp2⟩ := mkPage_ok_inv b t p hp
    rw [hp2]
  · intro n rs h1 h2
    exact mkPage_ok b t n rs h1 h2

theorem C10_witness :
    mkPoogleResultsPage true c10tree =
      Except.ok { results := [goodResult1], count := 1, total_results := 25, number := 0 } ∧
    ({ results := [goodResult1], count := 1, total_results := 25, number := 0 }
      : PoogleResultsPage).number = 0 := by
  obtain ⟨h1, h2⟩ := C10_number_always_zero true c10tree
  have hmk := h2 25 [goodResult1] rfl rfl
  exact ⟨hmk, h1 _ hmk⟩

end Poogle
